import Mathlib

/-!
# ML8s run-identity and idempotent artifact-cache core: a shallow embedding

This file embeds the deterministic run-identity subsystem of the ML8s
training pipeline (`src/training_pipeline/config.py` and
`src/training_pipeline/pipeline.py`) in Lean 4 and proves / refutes the
frozen specification claims about it.

Machine integers are modelled as `Nat` with explicit reduction modulo
`2^32` where the Python code relies on 32-bit hash arithmetic (inside
SHA-256 / MD5, which `hashlib` provides and which we implement here
bit-for-bit).  Bytes are `Nat` values below 256, byte strings are
`List Nat`.  Fallible code returns `Except String _` mirroring the raised
`RuntimeError` messages.
-/

/-- Reduce modulo `2^32`: the word size of SHA-256 / MD5 arithmetic. -/
def wmask (x : Nat) : Nat := x % 4294967296

/-- Right rotation of a 32-bit word. -/
def rotr32 (n x : Nat) : Nat := (x >>> n) ||| wmask (x <<< (32 - n))

/-- Left rotation of a 32-bit word. -/
def rotl32 (n x : Nat) : Nat := wmask (x <<< n) ||| (x >>> (32 - n))

/-- Big-endian byte rendering of `n` on `k` bytes. -/
def beBytes (k n : Nat) : List Nat :=
  (List.range k).map (fun i => (n >>> (8 * (k - 1 - i))) % 256)

/-- Little-endian byte rendering of `n` on `k` bytes. -/
def leBytes (k n : Nat) : List Nat :=
  (List.range k).map (fun i => (n >>> (8 * i)) % 256)

/-- Group a byte list into big-endian 32-bit words (SHA-256 block layout). -/
def toBeWords : List Nat → List Nat
  | a :: b :: c :: d :: rest =>
      (a * 16777216 + b * 65536 + c * 256 + d) :: toBeWords rest
  | _ => []

/-- Group a byte list into little-endian 32-bit words (MD5 block layout). -/
def toLeWords : List Nat → List Nat
  | a :: b :: c :: d :: rest =>
      (a + b * 256 + c * 65536 + d * 16777216) :: toLeWords rest
  | _ => []

/-- Split a byte list into 64-byte blocks (structurally, so that proofs can
evaluate it): `acc` carries the block under construction. -/
def chunk64Aux : List Nat → List Nat → List (List Nat)
  | [], acc => if acc.isEmpty then [] else [acc]
  | b :: rest, acc =>
    if acc.length == 63 then (acc ++ [b]) :: chunk64Aux rest []
    else chunk64Aux rest (acc ++ [b])

/-- Split a byte list into 64-byte blocks. -/
def chunk64 (l : List Nat) : List (List Nat) := chunk64Aux l []

/-- Merkle–Damgård padding tail length: zero bytes after the `0x80` byte so
that the padded length is `56 (mod 64)`, the 8-byte length field following. -/
def padZeroCount (len : Nat) : Nat := (119 - len % 64) % 64

/-- UTF-8 encoding of one character. -/
def utf8EncodeChar (c : Char) : List Nat :=
  let n := c.toNat
  if n < 128 then [n]
  else if n < 2048 then [192 ||| (n >>> 6), 128 ||| (n &&& 63)]
  else if n < 65536 then
    [224 ||| (n >>> 12), 128 ||| ((n >>> 6) &&& 63), 128 ||| (n &&& 63)]
  else
    [240 ||| (n >>> 18), 128 ||| ((n >>> 12) &&& 63),
     128 ||| ((n >>> 6) &&& 63), 128 ||| (n &&& 63)]

/-- UTF-8 encoding of a string, as Python `str.encode("utf-8")`. -/
def strBytes (s : String) : List Nat := s.data.flatMap utf8EncodeChar

/-- Lower-case hex digit. -/
def hexDigitChar (n : Nat) : Char :=
  if n < 10 then Char.ofNat (48 + n) else Char.ofNat (87 + n)

/-- Two-digit lower-case hex rendering of a byte. -/
def byteHex (b : Nat) : String := String.mk [hexDigitChar (b / 16), hexDigitChar (b % 16)]

/-- Lower-case hex rendering of a byte string: the Python `.hexdigest()` form. -/
def bytesToHex : List Nat → String
  | [] => ""
  | b :: bs => byteHex b ++ bytesToHex bs

/-! ## SHA-256 (`hashlib.sha256`) -/

/-- The 64 SHA-256 round constants. -/
def sha256K : List Nat :=
  [1116352408, 1899447441, 3049323471, 3921009573, 961987163, 1508970993, 2453635748, 2870763221,
   3624381080, 310598401, 607225278, 1426881987, 1925078388, 2162078206, 2614888103, 3248222580,
   3835390401, 4022224774, 264347078, 604807628, 770255983, 1249150122, 1555081692, 1996064986,
   2554220882, 2821834349, 2952996808, 3210313671, 3336571891, 3584528711, 113926993, 338241895,
   666307205, 773529912, 1294757372, 1396182291, 1695183700, 1986661051, 2177026350, 2456956037,
   2730485921, 2820302411, 3259730800, 3345764771, 3516065817, 3600352804, 4094571909, 275423344,
   430227734, 506948616, 659060556, 883997877, 958139571, 1322822218, 1537002063, 1747873779,
   1955562222, 2024104815, 2227730452, 2361852424, 2428436474, 2756734187, 3204031479, 3329325298]

/-- SHA-256 working state: eight 32-bit words. -/
structure Sha256State where
  a : Nat
  b : Nat
  c : Nat
  d : Nat
  e : Nat
  f : Nat
  g : Nat
  h : Nat

/-- SHA-256 initial hash value. -/
def sha256Init : Sha256State :=
  ⟨1779033703, 3144134277, 1013904242, 2773480762,
   1359893119, 2600822924, 528734635, 1541459225⟩

def shaSmallSigma0 (x : Nat) : Nat := (rotr32 7 x) ^^^ (rotr32 18 x) ^^^ (x >>> 3)

def shaSmallSigma1 (x : Nat) : Nat := (rotr32 17 x) ^^^ (rotr32 19 x) ^^^ (x >>> 10)

def shaBigSigma0 (x : Nat) : Nat := (rotr32 2 x) ^^^ (rotr32 13 x) ^^^ (rotr32 22 x)

def shaBigSigma1 (x : Nat) : Nat := (rotr32 6 x) ^^^ (rotr32 11 x) ^^^ (rotr32 25 x)

def shaCh (x y z : Nat) : Nat := (x &&& y) ^^^ ((x ^^^ 4294967295) &&& z)

def shaMaj (x y z : Nat) : Nat := (x &&& y) ^^^ (x &&& z) ^^^ (y &&& z)

/-- Extend the 16 block words to the 64-entry SHA-256 message schedule. -/
def sha256Extend (ws : List Nat) : List Nat :=
  (List.range 48).foldl
    (fun acc _ =>
      let n := acc.length
      let w := wmask (shaSmallSigma1 (acc.getD (n - 2) 0) + acc.getD (n - 7) 0 +
                      shaSmallSigma0 (acc.getD (n - 15) 0) + acc.getD (n - 16) 0)
      acc ++ [w]) ws

/-- One SHA-256 compression round. -/
def sha256Round (st : Sha256State) (kw : Nat × Nat) : Sha256State :=
  let t1 := wmask (st.h + shaBigSigma1 st.e + shaCh st.e st.f st.g + kw.1 + kw.2)
  let t2 := wmask (shaBigSigma0 st.a + shaMaj st.a st.b st.c)
  ⟨wmask (t1 + t2), st.a, st.b, st.c, wmask (st.d + t1), st.e, st.f, st.g⟩

/-- Process one 64-byte block. -/
def sha256Block (st : Sha256State) (block : List Nat) : Sha256State :=
  let ws := sha256Extend (toBeWords block)
  let r := (sha256K.zip ws).foldl (fun s kw => sha256Round s (kw.1, kw.2)) st
  ⟨wmask (st.a + r.a), wmask (st.b + r.b), wmask (st.c + r.c), wmask (st.d + r.d),
   wmask (st.e + r.e), wmask (st.f + r.f), wmask (st.g + r.g), wmask (st.h + r.h)⟩

/-- SHA-256 digest (32 bytes) of a byte string. -/
def sha256Bytes (msg : List Nat) : List Nat :=
  let padded := msg ++ 128 :: List.replicate (padZeroCount msg.length) 0 ++
                beBytes 8 (msg.length * 8)
  let fin := (chunk64 padded).foldl sha256Block sha256Init
  beBytes 4 fin.a ++ beBytes 4 fin.b ++ beBytes 4 fin.c ++ beBytes 4 fin.d ++
  beBytes 4 fin.e ++ beBytes 4 fin.f ++ beBytes 4 fin.g ++ beBytes 4 fin.h

/-- `hashlib.sha256(s.encode()).hexdigest()`. -/
def sha256HexOfString (s : String) : String := bytesToHex (sha256Bytes (strBytes s))

/-! ## MD5 (`hashlib.md5`) -/

/-- The 64 MD5 sine-derived constants. -/
def md5K : List Nat :=
  [3614090360, 3905402710, 606105819, 3250441966, 4118548399, 1200080426, 2821735955, 4249261313,
   1770035416, 2336552879, 4294925233, 2304563134, 1804603682, 4254626195, 2792965006, 1236535329,
   4129170786, 3225465664, 643717713, 3921069994, 3593408605, 38016083, 3634488961, 3889429448,
   568446438, 3275163606, 4107603335, 1163531501, 2850285829, 4243563512, 1735328473, 2368359562,
   4294588738, 2272392833, 1839030562, 4259657740, 2763975236, 1272893353, 4139469664, 3200236656,
   681279174, 3936430074, 3572445317, 76029189, 3654602809, 3873151461, 530742520, 3299628645,
   4096336452, 1126891415, 2878612391, 4237533241, 1700485571, 2399980690, 4293915773, 2240044497,
   1873313359, 4264355552, 2734768916, 1309151649, 4149444226, 3174756917, 718787259, 3951481745]

/-- The 64 MD5 per-step left-rotation amounts. -/
def md5S : List Nat :=
  [7, 12, 17, 22, 7, 12, 17, 22, 7, 12, 17, 22, 7, 12, 17, 22,
   5, 9, 14, 20, 5, 9, 14, 20, 5, 9, 14, 20, 5, 9, 14, 20,
   4, 11, 16, 23, 4, 11, 16, 23, 4, 11, 16, 23, 4, 11, 16, 23,
   6, 10, 15, 21, 6, 10, 15, 21, 6, 10, 15, 21, 6, 10, 15, 21]

/-- One MD5 step on the state quadruple `(a, b, c, d)`. -/
def md5Step (m : List Nat) (st : Nat × Nat × Nat × Nat) (i : Nat) : Nat × Nat × Nat × Nat :=
  let (a, b, c, d) := st
  let fg : Nat × Nat :=
    if i < 16 then ((b &&& c) ||| ((b ^^^ 4294967295) &&& d), i)
    else if i < 32 then ((d &&& b) ||| ((d ^^^ 4294967295) &&& c), (5 * i + 1) % 16)
    else if i < 48 then (b ^^^ c ^^^ d, (3 * i + 5) % 16)
    else (c ^^^ (b ||| (d ^^^ 4294967295)), (7 * i) % 16)
  let nb := wmask (b + rotl32 (md5S.getD i 0) (wmask (a + fg.1 + md5K.getD i 0 + m.getD fg.2 0)))
  (d, nb, b, c)

/-- Process one 64-byte MD5 block. -/
def md5Block (st : Nat × Nat × Nat × Nat) (block : List Nat) : Nat × Nat × Nat × Nat :=
  let m := toLeWords block
  let r := (List.range 64).foldl (md5Step m) st
  (wmask (st.1 + r.1), wmask (st.2.1 + r.2.1), wmask (st.2.2.1 + r.2.2.1), wmask (st.2.2.2 + r.2.2.2))

/-- MD5 digest (16 bytes) of a byte string. -/
def md5Bytes (msg : List Nat) : List Nat :=
  let padded := msg ++ 128 :: List.replicate (padZeroCount msg.length) 0 ++
                leBytes 8 (msg.length * 8)
  let fin := (chunk64 padded).foldl md5Block (1732584193, 4023233417, 2562383102, 271733878)
  leBytes 4 fin.1 ++ leBytes 4 fin.2.1 ++ leBytes 4 fin.2.2.1 ++ leBytes 4 fin.2.2.2

/-- `hashlib.md5(b).hexdigest()`. -/
def md5HexOfBytes (bs : List Nat) : String := bytesToHex (md5Bytes bs)

/-! ## Python primitives used by `config.py` -/

/-- Python whitespace for `str.strip()` (ASCII range). -/
def pyIsSpace (c : Char) : Bool :=
  c = ' ' || c = '\t' || c = '\n' || c = '\x0d' || c = '\x0b' || c = '\x0c'

/-- Python `str.strip()`. -/
def pyStrip (s : String) : String :=
  String.mk ((s.data.dropWhile pyIsSpace).reverse.dropWhile pyIsSpace |>.reverse)

/-- Python `str.lower()` (ASCII range, which is all the code feeds it). -/
def pyLower (s : String) : String := String.mk (s.data.map Char.toLower)

/-- Python `s.startswith(pre)`. -/
def pyStartsWith (s pre : String) : Bool := pre.data.isPrefixOf s.data

/-- Python `s.endswith(suf)`. -/
def pyEndsWith (s suf : String) : Bool := suf.data.isSuffixOf s.data

/-- Python `s[n:]` (by code points). -/
def pyDrop (s : String) (n : Nat) : String := String.mk (s.data.drop n)

/-- Python `s[:n]` (by code points). -/
def pyTake (s : String) (n : Nat) : String := String.mk (s.data.take n)

/-- Python `c in s` for a single character. -/
def pyContainsChar (s : String) (c : Char) : Bool := s.data.any (· == c)

/-- Helper of `pySplit`: `acc` carries the current piece reversed. -/
def pySplitAux (p : Char → Bool) : List Char → List Char → List String
  | [], acc => [String.mk acc.reverse]
  | c :: rest, acc =>
    if p c then String.mk acc.reverse :: pySplitAux p rest []
    else pySplitAux p rest (c :: acc)

/-- Python `str.split(sep)` for a one-character separator predicate. -/
def pySplit (p : Char → Bool) (s : String) : List String := pySplitAux p s.data []

/-- Six-bit value of a base64 alphabet character. -/
def b64Val (c : Char) : Option Nat :=
  if 'A' ≤ c ∧ c ≤ 'Z' then some (c.toNat - 65)
  else if 'a' ≤ c ∧ c ≤ 'z' then some (c.toNat - 71)
  else if '0' ≤ c ∧ c ≤ '9' then some (c.toNat + 4)
  else if c = '+' then some 62
  else if c = '/' then some 63
  else none

/-- Decode the run of base64 characters, CPython `binascii.a2b_base64`
(non-strict) style: `buf` holds the 6-bit values of the current quad.
A pad sign closes the stream once at least two data characters are pending;
earlier pad signs are skipped; leftover data characters are a padding error. -/
def b64Run : List Char → List Nat → Option (List Nat)
  | [], buf => if buf.isEmpty then some [] else none
  | '=' :: rest, buf =>
    match buf with
    | [] => b64Run rest buf
    | [_] => b64Run rest buf
    | [x, y] =>
      match rest with
      | '=' :: _ => some [x * 4 + y / 16]
      | _ => none
    | [x, y, z] => some [x * 4 + y / 16, (y % 16) * 16 + z / 4]
    | _ => none
  | c :: rest, buf =>
    let v := (b64Val c).getD 0
    match buf with
    | [a, b, c2] =>
      (b64Run rest []).map
        (fun tail => (a * 4 + b / 16) :: ((b % 16) * 16 + c2 / 4) :: ((c2 % 4) * 64 + v) :: tail)
    | _ => b64Run rest (buf ++ [v])

/-- `base64.b64decode(s)` with default (non-validating) settings: characters
outside the alphabet and `=` are discarded first; `none` models the raised
`binascii.Error`. -/
def b64decodePy (s : String) : Option (List Nat) :=
  b64Run (s.data.filter (fun c => (b64Val c).isSome || c = '=')) []

/-- A primitive Python value as it appears in an `fsspec` metadata dict. -/
inductive PyPrim where
  | pstr (s : String)
  | pbytes (bs : List Nat)
  | pint (n : Int)
deriving DecidableEq

/-- Python truthiness of a metadata value (`if not v: continue`). -/
def pyTruthy : PyPrim → Bool
  | .pstr s => s ≠ ""
  | .pbytes bs => !bs.isEmpty
  | .pint n => n ≠ 0

/-- UTF-8 decoding with `errors="ignore"`: valid sequences decode, invalid
lead or continuation bytes are skipped.  (Faithful on valid UTF-8, which is
the only case the metadata values of this repository exercise; the
resynchronisation after an invalid byte approximates that of CPython.) -/
def utf8DecodeIgnore (l : List Nat) : List Char :=
  match l with
  | [] => []
  | b :: rest =>
    if b < 128 then Char.ofNat b :: utf8DecodeIgnore rest
    else if 194 ≤ b ∧ b ≤ 223 then
      match rest with
      | b2 :: rest2 =>
        if 128 ≤ b2 ∧ b2 ≤ 191 then
          Char.ofNat ((b - 192) * 64 + (b2 - 128)) :: utf8DecodeIgnore rest2
        else utf8DecodeIgnore (b2 :: rest2)
      | [] => []
    else if 224 ≤ b ∧ b ≤ 239 then
      match rest with
      | b2 :: b3 :: rest3 =>
        if (128 ≤ b2 ∧ b2 ≤ 191) ∧ (128 ≤ b3 ∧ b3 ≤ 191) ∧
           (b = 224 → 160 ≤ b2) ∧ (b = 237 → b2 ≤ 159) then
          Char.ofNat ((b - 224) * 4096 + (b2 - 128) * 64 + (b3 - 128)) :: utf8DecodeIgnore rest3
        else utf8DecodeIgnore (b2 :: b3 :: rest3)
      | _ => []
    else if 240 ≤ b ∧ b ≤ 244 then
      match rest with
      | b2 :: b3 :: b4 :: rest4 =>
        if (128 ≤ b2 ∧ b2 ≤ 191) ∧ (128 ≤ b3 ∧ b3 ≤ 191) ∧ (128 ≤ b4 ∧ b4 ≤ 191) ∧
           (b = 240 → 144 ≤ b2) ∧ (b = 244 → b2 ≤ 143) then
          Char.ofNat ((b - 240) * 262144 + (b2 - 128) * 4096 + (b3 - 128) * 64 + (b4 - 128)) ::
            utf8DecodeIgnore rest4
        else utf8DecodeIgnore (b2 :: b3 :: b4 :: rest4)
      | _ => []
    else utf8DecodeIgnore rest
termination_by l.length
decreasing_by all_goals (simp_all; try omega)

/-- Python `repr(bytes)` payload escaping (used by `str(v)` on a bytes value). -/
def pyBytesReprChar (b : Nat) : String :=
  if b = 92 then "\\\\"
  else if b = 39 then "\\x27"
  else if b = 9 then "\\t"
  else if b = 10 then "\\n"
  else if b = 13 then "\\r"
  else if 32 ≤ b ∧ b < 127 then String.mk [Char.ofNat b]
  else "\\x" ++ byteHex b

/-- Python `str(v)` for a primitive metadata value. -/
def pyStrOfPrim : PyPrim → String
  | .pstr s => s
  | .pbytes bs => "b'" ++ String.join (bs.map pyBytesReprChar) ++ "'"
  | .pint n => toString n

/-- Python `int(v)`; `none` models the raised conversion error. -/
def pyIntOfPrim : PyPrim → Option Int
  | .pint n => some n
  | .pbytes _ => none
  | .pstr s =>
    let t := pyStrip s
    let core := if pyStartsWith t "-" || pyStartsWith t "+" then pyDrop t 1 else t
    if core = "" || !core.data.all Char.isDigit then none
    else
      let mag : Int := Int.ofNat (core.data.foldl (fun acc c => acc * 10 + (c.toNat - 48)) 0)
      some (if pyStartsWith t "-" then -mag else mag)

/-- A metadata dictionary as returned by `fs.info`. -/
def InfoDict := List (String × PyPrim)

/-- `info.get(key)`. -/
def dictGet (info : InfoDict) (k : String) : Option PyPrim :=
  (info.find? (fun p => p.1 == k)).map (·.2)

/-- Python `x or y` over optional metadata values (`None` and falsy values
fall through to the right operand). -/
def pyOr (a b : Option PyPrim) : Option PyPrim :=
  match a with
  | some v => if pyTruthy v then some v else b
  | none => b

/-! ## `config.py`: fingerprint helpers -/

/-- `_is_hex32`: `re.fullmatch(r"[0-9a-fA-F]{32}", s)`. -/
def _is_hex32 (s : String) : Bool :=
  s.length == 32 &&
  s.data.all (fun c => c.isDigit || ('a' ≤ c && c ≤ 'f') || ('A' ≤ c && c ≤ 'F'))

/-- The ordered candidate keys tried by `_extract_etag_like`. -/
def etagKeys : List String :=
  ["ETag", "etag", "etag_md5", "md5", "md5Hash", "hash", "Hash"]

/-- The key loop of `_extract_etag_like`: falsy or missing values are
skipped; a 32-hex value is returned lower-cased; otherwise the value is
base64-decoded and, when exactly 16 bytes result, `hashlib.md5(b).hexdigest()`
of those bytes is returned (this is what the source computes; see the C4
analysis below). -/
def etagFromKeys (info : InfoDict) : List String → Option String
  | [] => none
  | k :: ks =>
    match dictGet info k with
    | none => etagFromKeys info ks
    | some v =>
      if !pyTruthy v then etagFromKeys info ks
      else
        let vs := match v with
          | .pbytes bs => String.mk (utf8DecodeIgnore bs)
          | _ => pyStrOfPrim v
        if _is_hex32 vs then some (pyLower vs)
        else
          match b64decodePy vs with
          | some bs => if bs.length == 16 then some (md5HexOfBytes bs) else etagFromKeys info ks
          | none => etagFromKeys info ks

/-- `_extract_etag_like(info)`: metadata-derived content token, or the weak
`"size:<n>"` token, or `None`. -/
def _extract_etag_like (info : InfoDict) : Option String :=
  match etagFromKeys info etagKeys with
  | some t => some t
  | none =>
    match pyOr (pyOr (dictGet info "size") (dictGet info "Size")) (dictGet info "length") with
    | none => none
    | some v =>
      match pyIntOfPrim v with
      | some n => some ("size:" ++ toString n)
      | none => some ("size:" ++ pyStrOfPrim v)

/-- Lexicographic code-point comparison of character lists: the order
the Python string `<=` uses. -/
def strLeb : List Char → List Char → Bool
  | [], _ => true
  | _ :: _, [] => false
  | a :: as, b :: bs =>
    if a.toNat < b.toNat then true
    else if b.toNat < a.toNat then false
    else strLeb as bs

/-- Python string `<=` (code-point lexicographic). -/
def pyStrLe (a b : String) : Bool := strLeb a.data b.data

/-- The Python `sorted` on strings.  Any correct sort produces the same
list for a total antisymmetric order, so we use the Mathlib insertion sort with
the code-point order, which comes with the permutation and sortedness
lemmas we need. -/
def sortStrings (l : List String) : List String :=
  l.insertionSort (fun a b => pyStrLe a b = true)

/-- `list(dict.fromkeys(items))`: deduplicate keeping first occurrences. -/
def dedupFirst (l : List String) : List String :=
  l.foldl (fun acc x => if acc.contains x then acc else acc ++ [x]) []

/-- `sep.join(parts)`. -/
def pyJoin (sep : String) : List String → String
  | [] => ""
  | [x] => x
  | x :: xs => x ++ sep ++ pyJoin sep xs

/-! ## `config.py`: `compute_data_fingerprint`

The storage backend reached through `fsspec` is modelled as the listing
`fs.find` returns (in backend order), the per-path metadata dict `fs.info`
(`none` models a raised exception, which the source turns into `{}`), and
the byte content the streaming reader delivers.  `_retry` re-runs a
deterministic computation and therefore disappears in the embedding; the
`fs.ls` walking fallback of `_list_files` only fires when `fs.find` itself
raises and is not modelled. -/

structure DataFS where
  listing : List String
  info : String → Option InfoDict
  content : String → List Nat

/-- The per-file token of `compute_data_fingerprint`:
`"<p>:<etag>"` for a weak size token, `"<p>:<etag>:<size>"` for a
metadata hash token, `"<p>:sha256:<digest>"` for the streaming fallback. -/
def tokenForPath (fs : DataFS) (prefer_etag : Bool) (p : String) : String :=
  let info := (fs.info p).getD []
  let et := if prefer_etag then _extract_etag_like info else none
  match et with
  | some e =>
    if pyStartsWith e "size:" then p ++ ":" ++ e
    else
      p ++ ":" ++ e ++ ":" ++
        (match dictGet info "size" with
         | none => ""
         | some v => pyStrOfPrim v)
  | none => p ++ ":sha256:" ++ bytesToHex (sha256Bytes (fs.content p))

/-- `sorted([p for p in fs.find(root) if not str(p).endswith("/")])`. -/
def listFiles (fs : DataFS) : List String :=
  sortStrings (fs.listing.filter (fun p => !pyEndsWith p "/"))

/-- `compute_data_fingerprint`: sort the listed files, token each one, join
with `"|"` and hash with SHA-256; zero files is a fatal error. -/
def compute_data_fingerprint (fs : DataFS) (prefer_etag : Bool := true) :
    Except String String :=
  let files := listFiles fs
  if files.isEmpty then .error "No files discovered under DATA_ROOT"
  else .ok (sha256HexOfString (pyJoin "|" (files.map (tokenForPath fs prefer_etag))))

/-! ## `config.py`: `_norm_scalar` -/

/-- A value produced by `_norm_scalar`: Python `None`, bool, int, float
(kept as its decimal token), string, or list of strings. -/
inductive PyVal where
  | pynone
  | pybool (b : Bool)
  | pyint (n : Int)
  | pyfloat (r : String)
  | pystr (s : String)
  | pylist (xs : List String)
deriving DecidableEq

/-- `re.fullmatch(r"^-?\d+$", s)` (ASCII digits; the claims never exercise
non-ASCII digit strings). -/
def isIntLit (s : String) : Bool :=
  let core := if pyStartsWith s "-" then pyDrop s 1 else s
  core ≠ "" && core.data.all Char.isDigit

/-- `re.fullmatch(r"^-?\d+\.\d+$", s)`. -/
def isFloatLit (s : String) : Bool :=
  let core := if pyStartsWith s "-" then pyDrop s 1 else s
  match pySplit (· = '.') core with
  | [a, b] => a ≠ "" && a.data.all Char.isDigit && b ≠ "" && b.data.all Char.isDigit
  | _ => false

/-- `int(s)` for a string already matching the integer literal pattern. -/
def parseIntLit (s : String) : Int :=
  let core := if pyStartsWith s "-" then pyDrop s 1 else s
  let mag : Int := Int.ofNat (core.data.foldl (fun acc c => acc * 10 + (c.toNat - 48)) 0)
  if pyStartsWith s "-" then -mag else mag

/-- `repr(float(s))` for a decimal literal: redundant leading zeros of the
integer part and trailing zeros of the fractional part are dropped (one
digit is kept on each side).  This models the CPython shortest round-trip
repr on the short literals the configuration traffics in; no claim depends
on this branch. -/
def pyFloatRepr (s : String) : String :=
  let neg := pyStartsWith s "-"
  let core := if neg then pyDrop s 1 else s
  match pySplit (· = '.') core with
  | [a, b] =>
    let a' := String.mk (a.data.dropWhile (· = '0'))
    let a'' := if a' = "" then "0" else a'
    let b' := String.mk (b.data.reverse.dropWhile (· = '0') |>.reverse)
    let b'' := if b' = "" then "0" else b'
    (if neg then "-" else "") ++ a'' ++ "." ++ b''
  | _ => s

/-- `_norm_scalar`: trim; empty to `None`; boolean tokens; integer literal;
decimal literal; comma list (trimmed, deduplicated, sorted); plain string. -/
def _norm_scalar (v : Option String) : PyVal :=
  match v with
  | none => .pynone
  | some v =>
    let s := pyStrip v
    if s = "" then .pynone
    else
      let sl := pyLower s
      if sl = "true" ∨ sl = "false" ∨ sl = "1" ∨ sl = "0" ∨ sl = "yes" ∨ sl = "no" then
        .pybool (sl = "true" ∨ sl = "1" ∨ sl = "yes")
      else if isIntLit s then .pyint (parseIntLit s)
      else if isFloatLit s then .pyfloat (pyFloatRepr s)
      else if pyContainsChar s ',' then
        .pylist (sortStrings (dedupFirst (((pySplit (· = ',') s).map pyStrip).filter (· ≠ ""))))
      else .pystr s

/-! ## JSON values and `json.dumps` -/

/-- A JSON value as produced by the Python code: `null`, bool, int, float
(represented by its `repr` token), string, array, object (insertion
order). -/
inductive JValue where
  | jnull
  | jbool (b : Bool)
  | jint (n : Int)
  | jnum (r : String)
  | jstr (s : String)
  | jarr (elems : List JValue)
  | jobj (fields : List (String × JValue))

/-- JSON escape of one character, `ensure_ascii=False` style. -/
def jsonEscapeChar (c : Char) : String :=
  if c = '"' then "\\\""
  else if c = '\\' then "\\\\"
  else if c = '\n' then "\\n"
  else if c = '\t' then "\\t"
  else if c = '\x0d' then "\\r"
  else if c.toNat = 8 then "\\b"
  else if c.toNat = 12 then "\\f"
  else if c.toNat < 32 then "\\u00" ++ byteHex c.toNat
  else String.mk [c]

/-- JSON string literal. -/
def jsonQuote (s : String) : String :=
  "\"" ++ String.join (s.data.map jsonEscapeChar) ++ "\""

/-- Sort object fields by key: the effect of `sort_keys=True`. -/
def sortPairs (kvs : List (String × JValue)) : List (String × JValue) :=
  kvs.insertionSort (fun a b => pyStrLe a.1 b.1 = true)

mutual

/-- Key-sort every object of a JSON value, recursively. -/
def sortDeep : JValue → JValue
  | .jarr xs => .jarr (sortDeepList xs)
  | .jobj kvs => .jobj (sortPairs (sortDeepPairs kvs))
  | v => v

def sortDeepList : List JValue → List JValue
  | [] => []
  | x :: xs => sortDeep x :: sortDeepList xs

def sortDeepPairs : List (String × JValue) → List (String × JValue)
  | [] => []
  | (k, v) :: kvs => (k, sortDeep v) :: sortDeepPairs kvs

end

mutual

/-- Compact rendering with separators `(",", ":")` (object keys assumed in
final order). -/
def renderJ : JValue → String
  | .jnull => "null"
  | .jbool b => if b then "true" else "false"
  | .jint n => toString n
  | .jnum r => r
  | .jstr s => jsonQuote s
  | .jarr xs => "[" ++ renderArr xs ++ "]"
  | .jobj kvs => "\x7b" ++ renderObj kvs ++ "\x7d"

def renderArr : List JValue → String
  | [] => ""
  | [x] => renderJ x
  | x :: xs => renderJ x ++ "," ++ renderArr xs

def renderObj : List (String × JValue) → String
  | [] => ""
  | [(k, v)] => jsonQuote k ++ ":" ++ renderJ v
  | (k, v) :: kvs => jsonQuote k ++ ":" ++ renderJ v ++ "," ++ renderObj kvs

end

/-- `json.dumps(obj, separators=(",", ":"), sort_keys=True, ensure_ascii=False)`. -/
def dumpsCompactSorted (v : JValue) : String := renderJ (sortDeep v)

/-- `canonical_json_str` applied to a canonical-config mapping. -/
def canonical_json_str (m : List (String × JValue)) : String :=
  dumpsCompactSorted (.jobj m)

/-- Indentation prefix at depth `d` for `indent=2`. -/
def jsonInd (d : Nat) : String := String.mk (List.replicate (2 * d) ' ')

mutual

/-- Indented rendering (`indent=2`, key separator `": "`, item separator
`","` + newline), object keys assumed in final order. -/
def renderJInd : Nat → JValue → String
  | _, .jnull => "null"
  | _, .jbool b => if b then "true" else "false"
  | _, .jint n => toString n
  | _, .jnum r => r
  | _, .jstr s => jsonQuote s
  | _, .jarr [] => "[]"
  | d, .jarr (x :: xs) =>
    "[\n" ++ jsonInd (d + 1) ++ renderArrInd (d + 1) (x :: xs) ++ "\n" ++ jsonInd d ++ "]"
  | _, .jobj [] => "\x7b\x7d"
  | d, .jobj (kv :: kvs) =>
    "\x7b\n" ++ jsonInd (d + 1) ++ renderObjInd (d + 1) (kv :: kvs) ++ "\n" ++
      jsonInd d ++ "\x7d"

def renderArrInd : Nat → List JValue → String
  | _, [] => ""
  | d, [x] => renderJInd d x
  | d, x :: y :: xs => renderJInd d x ++ ",\n" ++ jsonInd d ++ renderArrInd d (y :: xs)

def renderObjInd : Nat → List (String × JValue) → String
  | _, [] => ""
  | d, [(k, v)] => jsonQuote k ++ ": " ++ renderJInd d v
  | d, (k, v) :: kv :: kvs =>
    jsonQuote k ++ ": " ++ renderJInd d v ++ ",\n" ++ jsonInd d ++ renderObjInd d (kv :: kvs)

end

/-- `json.dumps(obj, indent=2, sort_keys=True, ensure_ascii=False)`. -/
def dumpsIndentSorted (v : JValue) : String := renderJInd 0 (sortDeep v)

/-! ## `config.py`: `_atomic_write_json` and the object store

An `fsspec` backend is modelled as a flat object store (uri, content) —
writes of one object are atomic at the object level, exactly the guarantee
object stores give — together with behaviour flags for the capability
probes and failure points of `_atomic_write_json`: whether the backend has
`rename`, whether `rename` raises, whether `copy` raises, whether `rm`
raises.  `makedirs` has no observable effect in a flat object store. -/

def ObjStore := List (String × String)

/-- Read an object. -/
def getObj (st : ObjStore) (u : String) : Option String :=
  (List.find? (fun p => p.1 == u) st).map (·.2)

/-- Write (create or overwrite) an object. -/
def setObj (st : ObjStore) (u v : String) : ObjStore :=
  (u, v) :: List.filter (fun p => p.1 != u) st

/-- Delete an object. -/
def delObj (st : ObjStore) (u : String) : ObjStore :=
  List.filter (fun p => p.1 != u) st

/-- Capability and failure flags of the storage backend. -/
structure FsBehavior where
  hasRename : Bool
  renameFails : Bool
  copyFails : Bool
  rmFails : Bool

/-- Result of a write attempt: final store state, plus the raised error
(`some` models the `RuntimeError`). -/
structure WriteOutcome where
  store : ObjStore
  err : Option String

/-- The first stage of `_atomic_write_json`: serialize and write the
temporary object at `"<uri>.tmp"`. -/
def atomicWriteTmpStage (st : ObjStore) (uri : String) (obj : JValue) : ObjStore :=
  setObj st (uri ++ ".tmp") (dumpsIndentSorted obj)

/-- `_atomic_write_json(obj, uri)`: write `"<uri>.tmp"`, try `rename`, fall
back to `copy` + `rm`, raise `"Failed atomic write for <uri>"` if the
fallback fails too. -/
def _atomic_write_json (beh : FsBehavior) (st : ObjStore) (uri : String) (obj : JValue) :
    WriteOutcome :=
  let tmp := uri ++ ".tmp"
  let data := dumpsIndentSorted obj
  let st1 := atomicWriteTmpStage st uri obj
  if beh.hasRename ∧ ¬beh.renameFails then
    { store := setObj (delObj st1 tmp) uri data, err := none }
  else if beh.copyFails then
    { store := st1, err := some ("Failed atomic write for " ++ uri) }
  else
    let st2 := setObj st1 uri data
    if beh.rmFails then
      { store := st2, err := some ("Failed atomic write for " ++ uri) }
    else
      { store := delObj st2 tmp, err := none }

/-! ## `config.py`: `PlatformConfig`, `build_canonical_config`,
`compute_full_hash_and_run_id` -/

/-- A Python float carried by the configuration, identified by its `repr`
token (the only way the identity subsystem ever consumes it). -/
structure PyFloat where
  r : String
deriving DecidableEq

/-- The pydantic `PlatformConfig` model: every field of the source class,
with `Optional[...]` as `Option`. -/
structure PlatformConfig where
  DATA_ROOT : String
  PIPELINE_ROOT_URI : String
  TASK_TYPE : String
  TASK_SUBTYPE : Option String
  TARGET_COLUMN : Option String
  TARGET_DATAFRAME : Option String
  ENABLE_TIME_SPLIT : Bool
  TIME_COLUMN : Option String
  GROUP_COLUMN : Option String
  FORECAST_HORIZON : Option Int
  SAMPLE_ROWS : Int
  STRICT_DATA_FINGERPRINT : Bool
  CANONICALIZATION_VERSION : String
  RANDOM_SEED : Int
  TASK_SUBTYPE_HINT : Option String
  ENABLE_RAY_TRANSFORMS : Bool
  RAY_ADDRESS : String
  RAY_NUM_CPUS : Int
  RAY_NUM_GPUS : Int
  FE_PARALLELISM : Int
  FE_BATCH_SIZE : Int
  RAY_USE_STREAMING : Option Bool
  RAY_OBJECT_STORE_MEMORY : Option String
  ENABLE_FEATURETOOLS : Bool
  FT_TARGET_ENTITY : Option String
  FT_MAX_DEPTH : Option Int
  FT_MAX_FEATURES : Option Int
  FT_USE_TIME_INDEX : Bool
  MAX_FEATURES : Int
  CORRELATION_THRESHOLD : PyFloat
  MAX_MISSING_RATIO : PyFloat
  ENABLE_LAG_FEATURES : Bool
  LAG_PERIODS : Option (List Int)
  ENABLE_ROLLING_FEATURES : Bool
  ROLLING_WINDOWS : Option (List Int)
  SPLIT_STRATEGY : String
  TRAIN_SIZE : PyFloat
  CV_FOLDS : Int
  STRATIFY_BY : Option String
  GROUP_SPLIT_COLUMN : Option String
  AUTOML_TIME_BUDGET : Int
  N_CONCURRENT_TRIALS : Int
  MODEL_LIST : Option (List String)
  HANDLE_IMBALANCE : Bool
  IMBALANCE_STRATEGY : String
  MAX_CLASS_IMBALANCE_RATIO : Int
  MODEL_BACKEND : String
  DISTRIBUTED_TRAINING : Bool
  TRAINING_FRAMEWORK : String
  MODEL_FORMAT : String
  PRIMARY_METRIC : Option String
  PIPELINE_MODE : String
  EXISTING_MODEL_PATH : Option String
  FE_CPU_REQUEST : Int
  FE_MEMORY_REQUEST : String
  TRAIN_CPU_REQUEST : Int
  TRAIN_MEMORY_REQUEST : String
  TRAIN_GPU : Int
  CACHE_ENABLED : Bool
  CACHE_VERSION : String
  FORCE_RERUN : Bool
  MAX_ROWS_FULL_LOAD : Int
  MAX_FEATURE_CAP_PLATFORM : Int
  MAX_AUTOML_TIME_BUDGET : Int
  ENABLE_MLFLOW : Bool
  MLFLOW_TRACKING_URI : Option String
  MLFLOW_EXPERIMENT_PREFIX : String
  MLFLOW_MODEL_NAME : Option String
  TRAINING_STAGE_TIMEOUT_SECONDS : Int
  TRAINING_PIPELINE_MAX_SECONDS : Int
  GLOBAL_RANDOM_SEED : Int
  DETERMINISTIC_TRAINING : Bool
  MIN_ACCEPTABLE_METRIC : Option PyFloat
  EARLY_STOPPING_ENABLED : Bool
  EARLY_STOPPING_ROUNDS : Int
  SAVE_OOF_PREDICTIONS : Bool
  ENABLE_FEATURE_IMPORTANCE : Bool
  ENABLE_SHAP_VALUES : Bool
  MAX_SHAP_SAMPLES : Int
  EXPORT_BASELINE_STATISTICS : Bool
  DRIFT_REFERENCE_WINDOW : String
  EXPORT_PIPELINE_METRICS : Bool
  TENANT_ID : String
  PROJECT_ID : String
  PII_COLUMNS : Option (List String)
  HASH_PII_COLUMNS : Bool
  LOG_SAMPLE_ROWS : Bool
  ARTIFACT_RETENTION_DAYS : Int
  REDACTED_ENV_KEYS : Option String
  LOG_LEVEL : String
deriving DecidableEq

/-- Canonicalize a required string field: `None`/`""` become `null`. -/
def canonStr (s : String) : JValue := if s = "" then .jnull else .jstr s

/-- Canonicalize an optional string field. -/
def canonOptStr : Option String → JValue
  | none => .jnull
  | some s => canonStr s

/-- Canonicalize an int field. -/
def canonInt (n : Int) : JValue := .jint n

/-- Canonicalize an optional int field. -/
def canonOptInt : Option Int → JValue
  | none => .jnull
  | some n => .jint n

/-- Canonicalize a float field (floats pass through). -/
def canonFloat (f : PyFloat) : JValue := .jnum f.r

/-- `sorted(list(dict.fromkeys([str(x) for x in v])))` for an
already-stringified list. -/
def canonList (xs : List String) : JValue :=
  .jarr ((sortStrings (dedupFirst xs)).map .jstr)

/-- Canonicalize an optional int-list field. -/
def canonOptListInt : Option (List Int) → JValue
  | none => .jnull
  | some xs => canonList (xs.map toString)

/-- Canonicalize an optional string-list field. -/
def canonOptListStr : Option (List String) → JValue
  | none => .jnull
  | some xs => canonList xs

/-- `build_canonical_config`: project the configuration to `IDENTITY_VARS`
in order (skipping `TEST_SIZE` and `RETRAIN_FROM_MODEL_URI`, which are not
`PlatformConfig` fields, so their `hasattr` check is false), then apply the
canonicalization pass: `None`/`""` to `null`, lists to sorted deduplicated
string arrays, bools and everything else pass through. -/
def build_canonical_config (cfg : PlatformConfig) : List (String × JValue) :=
  [("DATA_ROOT", canonStr cfg.DATA_ROOT),
   ("TARGET_DATAFRAME", canonOptStr cfg.TARGET_DATAFRAME),
   ("TARGET_COLUMN", canonOptStr cfg.TARGET_COLUMN),
   ("TIME_COLUMN", canonOptStr cfg.TIME_COLUMN),
   ("GROUP_COLUMN", canonOptStr cfg.GROUP_COLUMN),
   ("SAMPLE_ROWS", canonInt cfg.SAMPLE_ROWS),
   ("TASK_TYPE", canonStr cfg.TASK_TYPE),
   ("TASK_SUBTYPE", canonOptStr cfg.TASK_SUBTYPE),
   ("RANDOM_SEED", canonInt cfg.RANDOM_SEED),
   ("FORECAST_HORIZON", canonOptInt cfg.FORECAST_HORIZON),
   ("ENABLE_TIME_SPLIT", .jbool cfg.ENABLE_TIME_SPLIT),
   ("ENABLE_RAY_TRANSFORMS", .jbool cfg.ENABLE_RAY_TRANSFORMS),
   ("ENABLE_FEATURETOOLS", .jbool cfg.ENABLE_FEATURETOOLS),
   ("FT_TARGET_ENTITY", canonOptStr cfg.FT_TARGET_ENTITY),
   ("FT_MAX_DEPTH", canonOptInt cfg.FT_MAX_DEPTH),
   ("FT_MAX_FEATURES", canonOptInt cfg.FT_MAX_FEATURES),
   ("FT_USE_TIME_INDEX", .jbool cfg.FT_USE_TIME_INDEX),
   ("MAX_FEATURES", canonInt cfg.MAX_FEATURES),
   ("CORRELATION_THRESHOLD", canonFloat cfg.CORRELATION_THRESHOLD),
   ("MAX_MISSING_RATIO", canonFloat cfg.MAX_MISSING_RATIO),
   ("ENABLE_LAG_FEATURES", .jbool cfg.ENABLE_LAG_FEATURES),
   ("LAG_PERIODS", canonOptListInt cfg.LAG_PERIODS),
   ("ENABLE_ROLLING_FEATURES", .jbool cfg.ENABLE_ROLLING_FEATURES),
   ("ROLLING_WINDOWS", canonOptListInt cfg.ROLLING_WINDOWS),
   ("AUTOML_TIME_BUDGET", canonInt cfg.AUTOML_TIME_BUDGET),
   ("MODEL_LIST", canonOptListStr cfg.MODEL_LIST),
   ("HANDLE_IMBALANCE", .jbool cfg.HANDLE_IMBALANCE),
   ("IMBALANCE_STRATEGY", canonStr cfg.IMBALANCE_STRATEGY),
   ("PRIMARY_METRIC", canonOptStr cfg.PRIMARY_METRIC),
   ("MODEL_FORMAT", canonStr cfg.MODEL_FORMAT),
   ("SPLIT_STRATEGY", canonStr cfg.SPLIT_STRATEGY),
   ("TRAIN_SIZE", canonFloat cfg.TRAIN_SIZE),
   ("CV_FOLDS", canonInt cfg.CV_FOLDS),
   ("STRATIFY_BY", canonOptStr cfg.STRATIFY_BY),
   ("GROUP_SPLIT_COLUMN", canonOptStr cfg.GROUP_SPLIT_COLUMN),
   ("CANONICALIZATION_VERSION", canonStr cfg.CANONICALIZATION_VERSION),
   ("STRICT_DATA_FINGERPRINT", .jbool cfg.STRICT_DATA_FINGERPRINT)]

/-- `os.environ.get("STRICT_DATA_FINGERPRINT") in ("1", "true", "True", True)`:
resolution of the strict default from the process environment. -/
def strictEnvFlag (env : List (String × String)) : Bool :=
  match (List.find? (fun p => p.1 == "STRICT_DATA_FINGERPRINT") env).map (·.2) with
  | some v => v = "1" ∨ v = "true" ∨ v = "True"
  | none => false

/-- `compute_full_hash_and_run_id(canonical_json, data_fingerprint,
include_data_fingerprint)`: when the resolved strict flag is on, a missing
or empty fingerprint raises; otherwise hash `canonical_json + "\n" +
fingerprint` (or `canonical_json` alone when off) and take the first 12
hex characters as the run id. -/
def compute_full_hash_and_run_id (env : List (String × String)) (canonical_json : String)
    (data_fingerprint : Option String) (include_data_fingerprint : Option Bool) :
    Except String (String × String) :=
  let inc := include_data_fingerprint.getD (strictEnvFlag env)
  if inc then
    match data_fingerprint with
    | none => .error "Data fingerprint required but not provided"
    | some s =>
      if s = "" then .error "Data fingerprint required but not provided"
      else
        let full := sha256HexOfString (canonical_json ++ "\n" ++ s)
        .ok (full, pyTake full 12)
  else
    let full := sha256HexOfString canonical_json
    .ok (full, pyTake full 12)

/-- `canonical_json_and_hash(cfg, data_fingerprint)`. -/
def canonical_json_and_hash (env : List (String × String)) (cfg : PlatformConfig)
    (data_fingerprint : Option String) : Except String (String × String × String) :=
  let canonical_json := canonical_json_str (build_canonical_config cfg)
  (compute_full_hash_and_run_id env canonical_json data_fingerprint
      (some cfg.STRICT_DATA_FINGERPRINT)).map
    (fun p => (canonical_json, p.1, p.2))

/-- `artifact_root.rstrip("/")` (the Python call strips only `/` here). -/
def rstripSlash (s : String) : String :=
  String.mk ((s.data.reverse.dropWhile (· = '/')).reverse)

/-- `derive_artifact_root`. -/
def derive_artifact_root (pipeline_root_uri : String) (run_id : String) :
    Except String String :=
  if pipeline_root_uri = "" then
    .error "PIPELINE_ROOT_URI is required to derive artifact root"
  else .ok (rstripSlash pipeline_root_uri ++ "/ml8s_training_runs/" ++ run_id)

/-! ## `config.py`: `persist_config_snapshot` -/

/-- `os.environ.get(k)` over the modelled process environment. -/
def envGet (env : List (String × String)) (k : String) : Option String :=
  (List.find? (fun p => p.1 == k) env).map (·.2)

/-- The redaction set derived from the `REDACTED_ENV_KEYS` environment
variable: split on `","`, strip, drop empties. -/
def redactSetFromEnv (env : List (String × String)) : List String :=
  ((pySplit (· = ',') ((envGet env "REDACTED_ENV_KEYS").getD "")).map pyStrip).filter (· ≠ "")

/-- The `env` object of the snapshot: every environment variable in sorted
key order, redaction-listed keys replaced by the literal `"<REDACTED>"`,
all other values verbatim. -/
def envSnapshot (env : List (String × String)) (redact_keys : Option (List String)) :
    List (String × String) :=
  let redact := match redact_keys with
    | none => redactSetFromEnv env
    | some ks => ks
  (sortStrings (env.map (·.1))).map
    (fun k => (k, if k ∈ redact then "<REDACTED>" else (envGet env k).getD ""))

/-- The snapshot record `persist_config_snapshot` serializes (`now` stands
for the formatted UTC timestamp, an input of the model). -/
def buildSnapshot (env : List (String × String)) (now : String)
    (canonical_cfg : List (String × JValue)) (full_hash run_id : String)
    (data_fingerprint : Option String) (redact_keys : Option (List String)) : JValue :=
  .jobj
    [("canonical_config", .jobj canonical_cfg),
     ("full_config_hash", .jstr full_hash),
     ("run_id", .jstr run_id),
     ("data_fingerprint", match data_fingerprint with | none => .jnull | some s => .jstr s),
     ("timestamp_utc", .jstr now),
     ("env", .jobj ((envSnapshot env redact_keys).map (fun kv => (kv.1, JValue.jstr kv.2))))]

/-- `persist_config_snapshot`: build the snapshot and atomically write it
at `"<artifact_root>/config_snapshot.json"`; returns the uri and the write
outcome. -/
def persist_config_snapshot (env : List (String × String)) (now : String)
    (beh : FsBehavior) (store : ObjStore) (artifact_root : String)
    (canonical_cfg : List (String × JValue)) (full_hash run_id : String)
    (data_fingerprint : Option String) (redact_keys : Option (List String)) :
    String × WriteOutcome :=
  let cfg_uri := rstripSlash artifact_root ++ "/config_snapshot.json"
  (cfg_uri, _atomic_write_json beh store cfg_uri
    (buildSnapshot env now canonical_cfg full_hash run_id data_fingerprint redact_keys))

/-- Field lookup inside a JSON object. -/
def getField (v : JValue) (k : String) : Option JValue :=
  match v with
  | .jobj kvs => (List.find? (fun p => p.1 == k) kvs).map (·.2)
  | _ => none

/-! ## `pipeline.py`: the idempotence gate

`idempotence_gate` (pipeline.py lines 35-50) calls
`check_existing_run_and_validate`, which is imported from `config` but not
present in the repository sources; only its callers exist.  Its behaviour
is therefore modelled from the specification (§4.5, §4.6): read the success
marker; absent marker means no prior run; with the marker present, a
readable snapshot whose `(full_hash, data_fingerprint)` pair equals the
expected pair means a valid prior run reported as "valid cached run.", and
anything else (unreadable snapshot, mismatch) conservatively means no
usable prior run.  The artifact-root state it inspects is modelled at the
level the spec describes: whether the marker object exists and the parsed
snapshot if it is readable (`none` covering both a missing and a corrupt
snapshot, which `read` surfaces as "absent"); `markerRmFails` is the
failure flag for the best-effort `fs.rm` in `idempotence_gate`. -/

/-- The two snapshot fields the gate compares. -/
structure SnapshotIds where
  full_hash : String
  data_fingerprint : Option String
deriving DecidableEq

/-- The artifact-root state seen by the gate. -/
structure RunStore where
  marker : Bool
  snapshot : Option SnapshotIds
  markerRmFails : Bool
deriving DecidableEq

/-- Modelled from the spec: `check_existing_run_and_validate(artifact_root,
expected_full_hash, expected_data_fingerprint)`, absent from `src/` (only
its callers are present).  Returns whether a valid prior run exists and a
status string, `"valid cached run."` in the valid case. -/
def check_existing_run_and_validate (st : RunStore)
    (expected_full_hash expected_data_fingerprint : String) : Bool × String :=
  if st.marker then
    match st.snapshot with
    | some snap =>
      if snap.full_hash = expected_full_hash ∧
         snap.data_fingerprint = some expected_data_fingerprint then
        (true, "valid cached run.")
      else (false, "snapshot mismatch")
    | none => (false, "snapshot unreadable")
  else (false, "no prior run")

/-- The result dictionary of the gate. -/
structure GateResult where
  early_exit : Bool
  reason : Option String
deriving DecidableEq

/-- `idempotence_gate` (pipeline.py): early-exit on a valid prior run
unless force-rerun is on; with force-rerun on, delete the success marker
best-effort (a deletion failure is swallowed and logged) and proceed. -/
def idempotence_gate (st : RunStore) (expected_full_hash expected_data_fingerprint : String)
    (force_rerun : Bool) : GateResult × RunStore :=
  let res := check_existing_run_and_validate st expected_full_hash expected_data_fingerprint
  if res.1 ∧ ¬force_rerun then
    ({ early_exit := true, reason := some res.2 }, st)
  else if res.1 ∧ force_rerun then
    let st' := if st.markerRmFails then st else { st with marker := false }
    ({ early_exit := false, reason := none }, st')
  else ({ early_exit := false, reason := none }, st)

/-- The pipeline step after the gate (pipeline.py lines 59-61): an early
exit returns the reason of the gate, otherwise the run proceeds. -/
inductive PipelineOutcome where
  | earlyExit (reason : Option String)
  | proceeded
deriving DecidableEq

/-- The gate-driven branch of `run_pipeline_local`. -/
def run_pipeline_decision (st : RunStore) (full_hash data_fingerprint : String)
    (force_rerun : Bool) : PipelineOutcome × RunStore :=
  let (g, st') := idempotence_gate st full_hash data_fingerprint force_rerun
  if g.early_exit then (.earlyExit g.reason, st') else (.proceeded, st')

/-- The success-marker write at the end of a successful run
(pipeline.py lines 84-97, happy path). -/
def write_success_marker (st : RunStore) : RunStore := { st with marker := true }


/-! ## Theorems for the specification claims -/

/-- C1: with force-rerun off, a present marker plus a readable snapshot
whose `(full_hash, data_fingerprint)` pair equals the expected pair makes
the gate report a valid prior run and the pipeline short-circuit with
reason `"valid cached run."`; an absent marker makes the gate report no
prior run and the pipeline proceed. -/
theorem claim_C1 (st : RunStore) (full fp : String) :
    (st.marker = true →
      ∀ snap, st.snapshot = some snap → snap.full_hash = full →
        snap.data_fingerprint = some fp →
        check_existing_run_and_validate st full fp = (true, "valid cached run.") ∧
        idempotence_gate st full fp false =
          ({ early_exit := true, reason := some "valid cached run." }, st) ∧
        run_pipeline_decision st full fp false =
          (.earlyExit (some "valid cached run."), st)) ∧
    (st.marker = false →
      check_existing_run_and_validate st full fp = (false, "no prior run") ∧
      ∀ force_rerun,
        idempotence_gate st full fp force_rerun =
          ({ early_exit := false, reason := none }, st) ∧
        run_pipeline_decision st full fp force_rerun = (.proceeded, st)) := by
  constructor
  · intro hm snap hsnap hfh hdf
    have h1 : check_existing_run_and_validate st full fp = (true, "valid cached run.") := by
      simp [check_existing_run_and_validate, hm, hsnap, hfh, hdf]
    refine ⟨h1, ?_, ?_⟩
    · simp [idempotence_gate, h1]
    · simp [run_pipeline_decision, idempotence_gate, h1]
  · intro hm
    have h1 : check_existing_run_and_validate st full fp = (false, "no prior run") := by
      simp [check_existing_run_and_validate, hm]
    refine ⟨h1, fun force_rerun => ⟨?_, ?_⟩⟩
    · simp [idempotence_gate, h1]
    · simp [run_pipeline_decision, idempotence_gate, h1]

/-- Witness for C1 at a concrete store: a matching marker+snapshot with
force-rerun off short-circuits with reason `"valid cached run."`; a store
without the marker proceeds. -/
theorem claim_C1_witness :
    idempotence_gate ⟨true, some ⟨"h", some "d"⟩, false⟩ "h" "d" false =
      ({ early_exit := true, reason := some "valid cached run." },
        ⟨true, some ⟨"h", some "d"⟩, false⟩) ∧
    run_pipeline_decision ⟨false, none, false⟩ "h" "d" false =
      (.proceeded, ⟨false, none, false⟩) := by
  exact ⟨((claim_C1 ⟨true, some ⟨"h", some "d"⟩, false⟩ "h" "d").1 rfl
            ⟨"h", some "d"⟩ rfl rfl rfl).2.1,
         (((claim_C1 ⟨false, none, false⟩ "h" "d").2 rfl).2 false).2⟩

/-- C8: with a valid prior run and force-rerun on, the gate deletes the
success marker best-effort (a deletion failure is swallowed: the gate still
returns normally with `early_exit = false`), the pipeline proceeds, and a
successful run regenerates the marker. -/
theorem claim_C8 (st : RunStore) (full fp : String)
    (hvalid : (check_existing_run_and_validate st full fp).1 = true) :
    (idempotence_gate st full fp true).1 = { early_exit := false, reason := none } ∧
    (st.markerRmFails = false → ((idempotence_gate st full fp true).2).marker = false) ∧
    (st.markerRmFails = true → (idempotence_gate st full fp true).2 = st) ∧
    (run_pipeline_decision st full fp true).1 = .proceeded ∧
    (write_success_marker ((run_pipeline_decision st full fp true).2)).marker = true := by
  by_cases hrm : st.markerRmFails <;>
    simp [idempotence_gate, run_pipeline_decision, write_success_marker, hvalid, hrm]

/-- Witness for C8 at a concrete store: the marker is removed and the gate
reports `early_exit = false`. -/
theorem claim_C8_witness :
    (idempotence_gate ⟨true, some ⟨"h", some "d"⟩, false⟩ "h" "d" true).1 =
      { early_exit := false, reason := none } ∧
    ((idempotence_gate ⟨true, some ⟨"h", some "d"⟩, false⟩ "h" "d" true).2).marker = false := by
  have H := claim_C8 ⟨true, some ⟨"h", some "d"⟩, false⟩ "h" "d" (by decide)
  exact ⟨H.1, H.2.1 rfl⟩

/-- C3: with the resolved strict flag on, a missing (or empty) fingerprint
is a fatal error, and otherwise `full_hash` is the SHA-256 hex digest of
`canonical_json + "\n" + data_fingerprint` with `run_id` its first 12
characters; with the flag off the canonical JSON alone is hashed. -/
theorem claim_C3 (env : List (String × String)) (canonical_json : String)
    (data_fingerprint : Option String) (incOpt : Option Bool) :
    (incOpt.getD (strictEnvFlag env) = true →
      ((data_fingerprint = none ∨ data_fingerprint = some "") →
        compute_full_hash_and_run_id env canonical_json data_fingerprint incOpt =
          .error "Data fingerprint required but not provided") ∧
      (∀ s, data_fingerprint = some s → s ≠ "" →
        compute_full_hash_and_run_id env canonical_json data_fingerprint incOpt =
          .ok (sha256HexOfString (canonical_json ++ "\n" ++ s),
               pyTake (sha256HexOfString (canonical_json ++ "\n" ++ s)) 12))) ∧
    (incOpt.getD (strictEnvFlag env) = false →
      compute_full_hash_and_run_id env canonical_json data_fingerprint incOpt =
        .ok (sha256HexOfString canonical_json,
             pyTake (sha256HexOfString canonical_json) 12)) := by
  constructor
  · intro hinc
    constructor
    · rintro (hfp | hfp) <;> simp [compute_full_hash_and_run_id, hinc, hfp]
    · intro s hfp hs
      simp [compute_full_hash_and_run_id, hinc, hfp, hs]
  · intro hinc
    simp [compute_full_hash_and_run_id, hinc]

/-- Witness for C3 at concrete inputs, covering the fatal strict case, the
strict success case, and the non-strict case. -/
theorem claim_C3_witness :
    compute_full_hash_and_run_id [] "cj" none (some true) =
      .error "Data fingerprint required but not provided" ∧
    compute_full_hash_and_run_id [] "cj" (some "fp") (some true) =
      .ok (sha256HexOfString ("cj" ++ "\n" ++ "fp"),
           pyTake (sha256HexOfString ("cj" ++ "\n" ++ "fp")) 12) ∧
    compute_full_hash_and_run_id [] "cj" (some "fp") (some false) =
      .ok (sha256HexOfString "cj", pyTake (sha256HexOfString "cj") 12) := by
  exact ⟨((claim_C3 [] "cj" none (some true)).1 rfl).1 (Or.inl rfl),
         ((claim_C3 [] "cj" (some "fp") (some true)).1 rfl).2 "fp" rfl (by decide),
         (claim_C3 [] "cj" (some "fp") (some false)).2 rfl⟩

set_option maxRecDepth 100000 in
/-- C4 (the code, evaluated at the failing input): for a metadata map whose
content-identity entry is the base64 encoding of the 16-byte all-zero
digest, `_extract_etag_like` returns `hashlib.md5(b).hexdigest()` of the
decoded bytes — the MD5 *of* the digest — rather than the digest re-encoded
as 32 hex digits, contradicting the specified normalization. -/
theorem claim_C4 :
    b64decodePy "AAAAAAAAAAAAAAAAAAAAAA==" = some (List.replicate 16 0) ∧
    _extract_etag_like [("md5Hash", .pstr "AAAAAAAAAAAAAAAAAAAAAA==")] =
      some (md5HexOfBytes (List.replicate 16 0)) ∧
    md5HexOfBytes (List.replicate 16 0) = "4ae71336e44bf9bf79d2752e234818a5" ∧
    bytesToHex (List.replicate 16 0) = "00000000000000000000000000000000" ∧
    _extract_etag_like [("md5Hash", .pstr "AAAAAAAAAAAAAAAAAAAAAA==")] ≠
      some (bytesToHex (List.replicate 16 0)) := by
  exact ⟨by decide, by decide, by decide, by decide, by decide⟩

/-- C2 (counterexample): a file whose metadata resolves to the weak
`"size:<n>"` token gets a content-independent token, so flipping one byte
of its content leaves `compute_data_fingerprint` unchanged. -/
theorem claim_C2_counterexample :
    (fun _ => [0, 0, 0, 0, 0] : String → List Nat) "f" ≠
      (fun q => if q = "f" then [1, 0, 0, 0, 0] else [0, 0, 0, 0, 0]) "f" ∧
    compute_data_fingerprint
        ⟨["f"], fun _ => some [("size", .pint 5)], fun _ => [0, 0, 0, 0, 0]⟩ true =
      compute_data_fingerprint
        ⟨["f"], fun _ => some [("size", .pint 5)],
          fun q => if q = "f" then [1, 0, 0, 0, 0] else [0, 0, 0, 0, 0]⟩ true := by
  exact ⟨by decide, rfl⟩

/-- `find?` by one key is unaffected by filtering out a different key. -/
theorem find_filter_ne (st : ObjStore) (k q : String) (h : q ≠ k) :
    List.find? (fun p => p.1 == q) (List.filter (fun p => p.1 != k) st) =
    List.find? (fun p => p.1 == q) st := by
  induction st with
  | nil => rfl
  | cons hd tl ih =>
    by_cases hq : hd.1 = q
    · have hk : hd.1 ≠ k := fun hk => h (hk ▸ hq.symm)
      simp [List.filter_cons, hk, List.find?_cons, hq, h, Ne.symm h]
    · by_cases hk : hd.1 = k
      · simp [List.filter_cons, hk, List.find?_cons, hq, ih, h, Ne.symm h]
      · simp [List.filter_cons, hk, List.find?_cons, hq, ih, h, Ne.symm h]

/-- Reading the freshly written key returns the new value. -/
theorem getObj_setObj_same (st : ObjStore) (k v : String) :
    getObj (setObj st k v) k = some v := by
  simp [getObj, setObj, List.find?_cons]

/-- Writing one key does not change any other key. -/
theorem getObj_setObj_other (st : ObjStore) (k v q : String) (h : q ≠ k) :
    getObj (setObj st k v) q = getObj st q := by
  have : (k == q) = false := by
    simp only [beq_eq_false_iff_ne]
    exact fun hk => h hk.symm
  simp [getObj, setObj, List.find?_cons, this, find_filter_ne st k q h]

/-- Deleting one key does not change any other key. -/
theorem getObj_delObj_other (st : ObjStore) (k q : String) (h : q ≠ k) :
    getObj (delObj st k) q = getObj st q := by
  simp [getObj, delObj, find_filter_ne st k q h]

/-- A uri never equals its own temporary variant. -/
theorem self_ne_append_tmp (s : String) : s ≠ s ++ ".tmp" := by
  intro h
  have hlen := congrArg String.length h
  rw [String.length_append] at hlen
  have h4 : (".tmp" : String).length = 4 := rfl
  rw [h4] at hlen
  omega

/-- C5: the snapshot write serializes the object as indented JSON at
`"<uri>.tmp"` without touching the final uri (so stopping before the
rename leaves nothing at a previously absent final uri), a successful
outcome (atomic rename, or the copy-then-delete fallback when rename is
unavailable or fails) leaves the full serialization at the final uri, the
persistence error is raised exactly when rename is unusable and the
fallback also fails, and in every outcome the final uri holds either its
previous content or the complete serialization — never a partial object. -/
theorem claim_C5 (beh : FsBehavior) (st : ObjStore) (uri : String) (obj : JValue) :
    getObj (atomicWriteTmpStage st uri obj) (uri ++ ".tmp") =
      some (dumpsIndentSorted obj) ∧
    getObj (atomicWriteTmpStage st uri obj) uri = getObj st uri ∧
    (getObj st uri = none → getObj (atomicWriteTmpStage st uri obj) uri = none) ∧
    ((_atomic_write_json beh st uri obj).err = none →
      getObj (_atomic_write_json beh st uri obj).store uri = some (dumpsIndentSorted obj)) ∧
    ((_atomic_write_json beh st uri obj).err =
      if beh.hasRename ∧ ¬beh.renameFails then none
      else if beh.copyFails ∨ beh.rmFails then some ("Failed atomic write for " ++ uri)
      else none) ∧
    (getObj (_atomic_write_json beh st uri obj).store uri = getObj st uri ∨
      getObj (_atomic_write_json beh st uri obj).store uri = some (dumpsIndentSorted obj)) := by
  have hne : uri ≠ uri ++ ".tmp" := self_ne_append_tmp uri
  obtain ⟨hr, rf, cf, rm⟩ := beh
  refine ⟨getObj_setObj_same st (uri ++ ".tmp") (dumpsIndentSorted obj), ?_, ?_, ?_, ?_, ?_⟩
  · exact getObj_setObj_other st (uri ++ ".tmp") (dumpsIndentSorted obj) uri hne
  · intro h0
    rw [atomicWriteTmpStage, getObj_setObj_other st (uri ++ ".tmp") (dumpsIndentSorted obj) uri hne]
    exact h0
  · cases hr <;> cases rf <;> cases cf <;> cases rm <;>
      simp [_atomic_write_json, atomicWriteTmpStage, getObj_setObj_same,
            getObj_setObj_other, getObj_delObj_other, hne]
  · cases hr <;> cases rf <;> cases cf <;> cases rm <;>
      simp [_atomic_write_json]
  · cases hr <;> cases rf <;> cases cf <;> cases rm <;>
      simp [_atomic_write_json, atomicWriteTmpStage, getObj_setObj_same,
            getObj_setObj_other, getObj_delObj_other, hne]

/-- Witness for C5: on an empty store, stopping after the temp write leaves
nothing at the final uri, and a completed copy-fallback write leaves the
full serialization there. -/
theorem claim_C5_witness :
    getObj (atomicWriteTmpStage [] "u" .jnull) "u" = none ∧
    getObj ((_atomic_write_json ⟨false, false, false, false⟩ [] "u" .jnull).store) "u" =
      some (dumpsIndentSorted .jnull) := by
  exact ⟨(claim_C5 ⟨false, false, false, false⟩ [] "u" .jnull).2.2.1 rfl,
         (claim_C5 ⟨false, false, false, false⟩ [] "u" .jnull).2.2.2.1 rfl⟩

/-- The code-point order is total. -/
theorem strLeb_total : ∀ as bs : List Char, strLeb as bs = true ∨ strLeb bs as = true := by
  intro as
  induction as with
  | nil => intro bs; left; rfl
  | cons a as ih =>
    intro bs
    cases bs with
    | nil => right; rfl
    | cons b bs =>
      rcases Nat.lt_trichotomy a.toNat b.toNat with h | h | h
      · left; simp [strLeb, h]
      · rcases ih bs with h2 | h2
        · left; simp [strLeb, h, Nat.lt_irrefl, h2]
        · right; simp [strLeb, h, Nat.lt_irrefl, h2]
      · right; simp [strLeb, h]

/-- The code-point order is transitive. -/
theorem strLeb_trans : ∀ as bs cs : List Char,
    strLeb as bs = true → strLeb bs cs = true → strLeb as cs = true := by
  intro as
  induction as with
  | nil => intro bs cs _ _; rfl
  | cons a as ih =>
    intro bs cs h1 h2
    cases bs with
    | nil => simp [strLeb] at h1
    | cons b bs =>
      cases cs with
      | nil => simp [strLeb] at h2
      | cons c cs =>
        rcases Nat.lt_trichotomy a.toNat b.toNat with hab | hab | hab <;>
          rcases Nat.lt_trichotomy b.toNat c.toNat with hbc | hbc | hbc
        all_goals
          simp only [strLeb] at h1 h2 ⊢
        all_goals
          first
          | (rw [if_pos (by omega)])
          | (rw [if_neg (by omega), if_pos (by omega)]; omega)
          | (rw [if_neg (by omega), if_neg (by omega)]
             rw [if_neg (by omega), if_neg (by omega)] at h1
             rw [if_neg (by omega), if_neg (by omega)] at h2
             exact ih bs cs h1 h2)
          | (rw [if_neg (by omega), if_pos (by omega)] at h1; exact absurd h1 (by simp))
          | (rw [if_neg (by omega), if_pos (by omega)] at h2; exact absurd h2 (by simp))

/-- The code-point order is antisymmetric. -/
theorem strLeb_antisymm : ∀ as bs : List Char,
    strLeb as bs = true → strLeb bs as = true → as = bs := by
  intro as
  induction as with
  | nil =>
    intro bs _ h2
    cases bs with
    | nil => rfl
    | cons b bs => simp [strLeb] at h2
  | cons a as ih =>
    intro bs h1 h2
    cases bs with
    | nil => simp [strLeb] at h1
    | cons b bs =>
      rcases Nat.lt_trichotomy a.toNat b.toNat with hab | hab | hab
      · rw [strLeb, if_neg (by omega), if_pos (by omega)] at h2
        exact absurd h2 (by simp)
      · have hc : a = b := Char.ext (UInt32.ext hab)
        rw [strLeb, if_neg (by omega), if_neg (by omega)] at h1
        rw [strLeb, if_neg (by omega), if_neg (by omega)] at h2
        rw [hc, ih bs h1 h2]
      · rw [strLeb, if_neg (by omega), if_pos (by omega)] at h1
        exact absurd h1 (by simp)

/-- The sort relation used by `sortStrings`. -/
instance : IsTotal String (fun a b => pyStrLe a b = true) :=
  ⟨fun a b => strLeb_total a.data b.data⟩

instance : IsTrans String (fun a b => pyStrLe a b = true) :=
  ⟨fun a b c h1 h2 => strLeb_trans a.data b.data c.data h1 h2⟩

instance : IsAntisymm String (fun a b => pyStrLe a b = true) :=
  ⟨fun a b h1 h2 => by
    apply String.ext
    exact strLeb_antisymm a.data b.data h1 h2⟩

/-- Sorting is determined by the multiset of elements: permuted inputs sort
to the same list. -/
theorem sortStrings_perm_eq {l1 l2 : List String} (h : l1.Perm l2) :
    sortStrings l1 = sortStrings l2 :=
  List.eq_of_perm_of_sorted
    (((List.perm_insertionSort _ l1).trans h).trans (List.perm_insertionSort _ l2).symm)
    (List.sorted_insertionSort _ l1) (List.sorted_insertionSort _ l2)

/-- C6: the fingerprint is invariant under any permutation of the order in
which the listing of the backend returns the file paths. -/
theorem claim_C6 (l1 l2 : List String) (info : String → Option InfoDict)
    (content : String → List Nat) (prefer_etag : Bool) (h : l1.Perm l2) :
    compute_data_fingerprint ⟨l1, info, content⟩ prefer_etag =
    compute_data_fingerprint ⟨l2, info, content⟩ prefer_etag := by
  have hl : listFiles ⟨l1, info, content⟩ = listFiles ⟨l2, info, content⟩ :=
    sortStrings_perm_eq (h.filter _)
  have ht : tokenForPath ⟨l1, info, content⟩ = tokenForPath ⟨l2, info, content⟩ := rfl
  simp only [compute_data_fingerprint, hl, ht]

/-- Witness for C6: two listing orders of the same two files produce the
same fingerprint. -/
theorem claim_C6_witness :
    compute_data_fingerprint ⟨["b", "a"], fun _ => none, fun _ => [0]⟩ true =
    compute_data_fingerprint ⟨["a", "b"], fun _ => none, fun _ => [0]⟩ true :=
  claim_C6 ["b", "a"] ["a", "b"] (fun _ => none) (fun _ => [0]) true
    (List.Perm.swap "a" "b" [])

/-- C7: two configurations that differ only in platform-only fields (the
fields listed in `PLATFORM_VARS`, none of which is in `IDENTITY_VARS`) —
encoded as an arbitrary configuration and the same configuration with every
platform-only field replaced by arbitrary new values — produce identical
canonical JSON, identical `full_hash`, and identical `run_id`. -/
theorem claim_C7 (env : List (String × String)) (cfg : PlatformConfig)
    (data_fingerprint : Option String)
    (pru ra : String) (rnc rng fep feb : Int) (rus : Option Bool)
    (rosm : Option String) (fecpu : Int) (femem : String) (tcpu : Int)
    (tmem : String) (tgpu : Int) (ce : Bool) (cv : String) (fr : Bool)
    (mrfl mfcp mab : Int) (emf : Bool) (mtu : Option String) (mep : String)
    (mmn : Option String) (tsts tpms : Int) (pm : String)
    (emp : Option String) (dt : Bool) (tf ll : String) (rek : Option String)
    (ard : Int) (tid pid : String) :
    canonical_json_and_hash env
      { cfg with
        PIPELINE_ROOT_URI := pru
        RAY_ADDRESS := ra
        RAY_NUM_CPUS := rnc
        RAY_NUM_GPUS := rng
        FE_PARALLELISM := fep
        FE_BATCH_SIZE := feb
        RAY_USE_STREAMING := rus
        RAY_OBJECT_STORE_MEMORY := rosm
        FE_CPU_REQUEST := fecpu
        FE_MEMORY_REQUEST := femem
        TRAIN_CPU_REQUEST := tcpu
        TRAIN_MEMORY_REQUEST := tmem
        TRAIN_GPU := tgpu
        CACHE_ENABLED := ce
        CACHE_VERSION := cv
        FORCE_RERUN := fr
        MAX_ROWS_FULL_LOAD := mrfl
        MAX_FEATURE_CAP_PLATFORM := mfcp
        MAX_AUTOML_TIME_BUDGET := mab
        ENABLE_MLFLOW := emf
        MLFLOW_TRACKING_URI := mtu
        MLFLOW_EXPERIMENT_PREFIX := mep
        MLFLOW_MODEL_NAME := mmn
        TRAINING_STAGE_TIMEOUT_SECONDS := tsts
        TRAINING_PIPELINE_MAX_SECONDS := tpms
        PIPELINE_MODE := pm
        EXISTING_MODEL_PATH := emp
        DISTRIBUTED_TRAINING := dt
        TRAINING_FRAMEWORK := tf
        LOG_LEVEL := ll
        REDACTED_ENV_KEYS := rek
        ARTIFACT_RETENTION_DAYS := ard
        TENANT_ID := tid
        PROJECT_ID := pid } data_fingerprint =
    canonical_json_and_hash env cfg data_fingerprint := rfl

/-- C9: the raw string `"3,1,2,3"` normalizes to the sorted, deduplicated
string array `["1","2","3"]`, the same value `"1,2,3"` normalizes to, and a
configuration supplying either raw string for the list-valued identity
field `MODEL_LIST` produces the same `full_hash` (indeed the same whole
hash triple). -/
theorem claim_C9 :
    _norm_scalar (some "3,1,2,3") = .pylist ["1", "2", "3"] ∧
    _norm_scalar (some "3,1,2,3") = _norm_scalar (some "1,2,3") ∧
    ∀ (env : List (String × String)) (cfg : PlatformConfig) (fp : Option String)
      (l1 l2 : List String),
      _norm_scalar (some "3,1,2,3") = .pylist l1 →
      _norm_scalar (some "1,2,3") = .pylist l2 →
      canonical_json_and_hash env { cfg with MODEL_LIST := some l1 } fp =
      canonical_json_and_hash env { cfg with MODEL_LIST := some l2 } fp := by
  refine ⟨by decide, by decide, ?_⟩
  intro env cfg fp l1 l2 h1 h2
  have h12 : _norm_scalar (some "3,1,2,3") = _norm_scalar (some "1,2,3") := by decide
  rw [h12] at h1
  rw [h1] at h2
  cases h2
  rfl

/-- Looking up a key in a keyed map over a list containing it returns the
mapped value (first occurrence wins, and all occurrences agree). -/
theorem envGet_map_mem (ks : List String) (f : String → String) (k : String)
    (hk : k ∈ ks) :
    envGet (ks.map (fun x => (x, f x))) k = some (f k) := by
  induction ks with
  | nil => cases hk
  | cons a t ih =>
    by_cases h : a = k
    · subst h
      simp [envGet, List.find?_cons]
    · have hk2 : k ∈ t := by
        rcases List.mem_cons.mp hk with h2 | h2
        · exact absurd h2.symm h
        · exact h2
      simp only [List.map_cons, envGet, List.find?_cons]
      have hb : ((a, f a).1 == k) = false := by simp [h]
      rw [hb]
      exact ih hk2

/-- With pairwise-distinct keys, membership determines the lookup. -/
theorem envGet_of_mem_nodup (env : List (String × String)) (k v : String)
    (hnd : List.Nodup (env.map (·.1))) (hmem : (k, v) ∈ env) :
    envGet env k = some v := by
  induction env with
  | nil => cases hmem
  | cons hd tl ih =>
    rcases List.mem_cons.mp hmem with heq | hmem2
    · subst heq
      simp [envGet, List.find?_cons]
    · simp only [List.map_cons, List.nodup_cons] at hnd
      by_cases hk : hd.1 = k
      · exact absurd (List.mem_map.mpr ⟨(k, v), hmem2, rfl⟩) (hk ▸ hnd.1)
      · simp only [envGet, List.find?_cons]
        have hb : (hd.1 == k) = false := by simp [hk]
        rw [hb]
        exact ih hnd.2 hmem2

/-- C10: with `redact_keys` omitted, the `env` object of the persisted snapshot
lists every process-environment variable in sorted key order; each key
named by the comma-separated `REDACTED_ENV_KEYS` environment variable maps
to the literal `"<REDACTED>"`, and every other variable — any secret not on
that list included — is stored with its value verbatim. -/
theorem claim_C10 (env : List (String × String)) (now : String)
    (canonical_cfg : List (String × JValue)) (full_hash run_id : String)
    (data_fingerprint : Option String) :
    getField (buildSnapshot env now canonical_cfg full_hash run_id data_fingerprint none)
        "env" =
      some (.jobj ((envSnapshot env none).map (fun kv => (kv.1, JValue.jstr kv.2)))) ∧
    (envSnapshot env none).map (·.1) = sortStrings (env.map (·.1)) ∧
    List.Sorted (fun a b => pyStrLe a b = true) ((envSnapshot env none).map (·.1)) ∧
    (∀ k, k ∈ env.map (·.1) → k ∈ redactSetFromEnv env →
      envGet (envSnapshot env none) k = some "<REDACTED>") ∧
    (List.Nodup (env.map (·.1)) → ∀ k v, (k, v) ∈ env → k ∉ redactSetFromEnv env →
      envGet (envSnapshot env none) k = some v) := by
  have hkeys : (envSnapshot env none).map (·.1) = sortStrings (env.map (·.1)) := by
    simp [envSnapshot, List.map_map, Function.comp_def]
  refine ⟨rfl, hkeys, ?_, ?_, ?_⟩
  · rw [hkeys]
    exact List.sorted_insertionSort _ _
  · intro k hk hred
    have hmem : k ∈ sortStrings (env.map (·.1)) := by
      unfold sortStrings
      exact (List.mem_insertionSort _).mpr hk
    have := envGet_map_mem (sortStrings (env.map (·.1)))
      (fun k => if k ∈ redactSetFromEnv env then "<REDACTED>" else (envGet env k).getD "")
      k hmem
    simpa [envSnapshot, hred] using this
  · intro hnd k v hmem hnred
    have hk : k ∈ env.map (·.1) := List.mem_map.mpr ⟨(k, v), hmem, rfl⟩
    have hmem2 : k ∈ sortStrings (env.map (·.1)) := by
      unfold sortStrings
      exact (List.mem_insertionSort _).mpr hk
    have := envGet_map_mem (sortStrings (env.map (·.1)))
      (fun k => if k ∈ redactSetFromEnv env then "<REDACTED>" else (envGet env k).getD "")
      k hmem2
    simpa [envSnapshot, hnred, envGet_of_mem_nodup env k v hnd hmem] using this

/-- Witness for C10 at a concrete environment: the listed secret is
redacted, the unlisted secret is stored verbatim. -/
theorem claim_C10_witness :
    envGet (envSnapshot
        [("AWS_SECRET_ACCESS_KEY", "s3cr3t"), ("HOME", "/root"),
         ("MY_TOKEN", "t0p-s3cr3t"), ("REDACTED_ENV_KEYS", "AWS_SECRET_ACCESS_KEY")]
        none) "AWS_SECRET_ACCESS_KEY" = some "<REDACTED>" ∧
    envGet (envSnapshot
        [("AWS_SECRET_ACCESS_KEY", "s3cr3t"), ("HOME", "/root"),
         ("MY_TOKEN", "t0p-s3cr3t"), ("REDACTED_ENV_KEYS", "AWS_SECRET_ACCESS_KEY")]
        none) "MY_TOKEN" = some "t0p-s3cr3t" := by
  refine ⟨(claim_C10
      [("AWS_SECRET_ACCESS_KEY", "s3cr3t"), ("HOME", "/root"),
       ("MY_TOKEN", "t0p-s3cr3t"), ("REDACTED_ENV_KEYS", "AWS_SECRET_ACCESS_KEY")]
      "t" [] "h" "r" none).2.2.2.1 "AWS_SECRET_ACCESS_KEY" (by decide) (by decide),
    (claim_C10
      [("AWS_SECRET_ACCESS_KEY", "s3cr3t"), ("HOME", "/root"),
       ("MY_TOKEN", "t0p-s3cr3t"), ("REDACTED_ENV_KEYS", "AWS_SECRET_ACCESS_KEY")]
      "t" [] "h" "r" none).2.2.2.2 (by decide) "MY_TOKEN" "t0p-s3cr3t" (by decide) (by decide)⟩

/-- A byte renders as two hex digits. -/
theorem length_byteHex (b : Nat) : (byteHex b).length = 2 := rfl

/-- Hex rendering doubles the length. -/
theorem length_bytesToHex (bs : List Nat) : (bytesToHex bs).length = 2 * bs.length := by
  induction bs with
  | nil => rfl
  | cons b t ih =>
    rw [bytesToHex, String.length_append, length_byteHex, ih, List.length_cons]
    omega

/-- `beBytes` produces exactly `k` bytes. -/
theorem length_beBytes (k n : Nat) : (beBytes k n).length = k := by
  simp [beBytes]

/-- A SHA-256 digest is 32 bytes. -/
theorem length_sha256Bytes (msg : List Nat) : (sha256Bytes msg).length = 32 := by
  simp [sha256Bytes, List.length_append, length_beBytes]

/-- Equal-length prefixes of equal concatenations are equal (and so are the
suffixes). -/
theorem str_append_inj_left {s1 s2 t1 t2 : String} (h : s1 ++ t1 = s2 ++ t2)
    (hlen : s1.length = s2.length) : s1 = s2 ∧ t1 = t2 := by
  have hd : s1.data ++ t1.data = s2.data ++ t2.data := by
    have := congrArg String.data h
    simpa [String.data_append] using this
  have hl : s1.data.length = s2.data.length := hlen
  obtain ⟨h1, h2⟩ := List.append_inj hd hl
  exact ⟨String.ext h1, String.ext h2⟩

/-- Unfolding equation of `pyJoin` on a two-or-more-element list. -/
theorem pyJoin_cons2 (sep x y : String) (ys : List String) :
    pyJoin sep (x :: y :: ys) = x ++ sep ++ pyJoin sep (y :: ys) := rfl

/-- Joining tokens separates distinct inputs: if the token of one listed
path changes (to a token of the same length) while all other tokens stay
fixed, the joined string changes. -/
theorem pyJoin_map_ne : ∀ (files : List String) (f1 f2 : String → String) (p : String),
    p ∈ files → (∀ q, q ∈ files → q ≠ p → f1 q = f2 q) → f1 p ≠ f2 p →
    (f1 p).length = (f2 p).length →
    pyJoin "|" (files.map f1) ≠ pyJoin "|" (files.map f2) := by
  intro files
  induction files with
  | nil => intro f1 f2 p hp; cases hp
  | cons a rest ih =>
    intro f1 f2 p hp hoth hne hlen
    by_cases ha : a = p
    · subst ha
      cases rest with
      | nil => simpa [pyJoin] using hne
      | cons r rs =>
        intro h
        rw [List.map_cons, List.map_cons, List.map_cons, List.map_cons,
            pyJoin_cons2, pyJoin_cons2] at h
        have hl1 : (f1 a ++ "|").length = (f2 a ++ "|").length := by
          rw [String.length_append, String.length_append, hlen]
        obtain ⟨hh, _⟩ := str_append_inj_left h hl1
        obtain ⟨hh2, _⟩ := str_append_inj_left hh hlen
        exact hne hh2
    · have hp2 : p ∈ rest := by
        rcases List.mem_cons.mp hp with h2 | h2
        · exact absurd h2.symm ha
        · exact h2
      have hfa : f1 a = f2 a := hoth a (List.mem_cons_self a rest) ha
      cases rest with
      | nil => cases hp2
      | cons r rs =>
        intro h
        rw [List.map_cons, List.map_cons, List.map_cons, List.map_cons,
            pyJoin_cons2, pyJoin_cons2, hfa] at h
        obtain ⟨_, htail⟩ := str_append_inj_left h rfl
        exact ih f1 f2 p hp2
          (fun q hq hqp => hoth q (List.mem_cons_of_mem a hq) hqp) hne hlen htail

/-- The streaming-fallback token of a path. -/
theorem tokenForPath_sha_fallback (l : List String) (info : String → Option InfoDict)
    (c : String → List Nat) (prefer_etag : Bool) (p : String)
    (hetag : prefer_etag = true → _extract_etag_like ((info p).getD []) = none) :
    tokenForPath ⟨l, info, c⟩ prefer_etag p =
      p ++ ":sha256:" ++ bytesToHex (sha256Bytes (c p)) := by
  cases prefer_etag with
  | false => simp [tokenForPath]
  | true => simp [tokenForPath, hetag rfl]

/-- C2 (amended), in three parts: adding an empty directory (an entry the
file filter discards) never changes the fingerprint; flipping a byte of a
file whose content token is the streaming SHA-256 fallback changes the
joined pre-image the fingerprint hashes — hence the fingerprint itself
whenever SHA-256 does not collide on the two joined token strings; and a
file whose metadata yields a content token (an etag-like or weak size
token) contributes a content-independent token, so with the etag
preference on, changing only the content of such a file never changes the
fingerprint — the "only when" direction of the byte-flip sentence. -/
theorem claim_C2_amended :
    (∀ (fs : DataFS) (prefer_etag : Bool) (d : String), pyEndsWith d "/" = true →
      compute_data_fingerprint ⟨fs.listing ++ [d], fs.info, fs.content⟩ prefer_etag =
      compute_data_fingerprint fs prefer_etag) ∧
    (∀ (l : List String) (info : String → Option InfoDict) (c1 c2 : String → List Nat)
       (prefer_etag : Bool) (p : String),
      p ∈ listFiles ⟨l, info, c1⟩ →
      (∀ q, q ≠ p → c1 q = c2 q) →
      (prefer_etag = true → _extract_etag_like ((info p).getD []) = none) →
      bytesToHex (sha256Bytes (c1 p)) ≠ bytesToHex (sha256Bytes (c2 p)) →
      compute_data_fingerprint ⟨l, info, c1⟩ prefer_etag =
        .ok (sha256HexOfString (pyJoin "|"
          ((listFiles ⟨l, info, c1⟩).map (tokenForPath ⟨l, info, c1⟩ prefer_etag)))) ∧
      compute_data_fingerprint ⟨l, info, c2⟩ prefer_etag =
        .ok (sha256HexOfString (pyJoin "|"
          ((listFiles ⟨l, info, c2⟩).map (tokenForPath ⟨l, info, c2⟩ prefer_etag)))) ∧
      pyJoin "|" ((listFiles ⟨l, info, c1⟩).map (tokenForPath ⟨l, info, c1⟩ prefer_etag)) ≠
        pyJoin "|" ((listFiles ⟨l, info, c2⟩).map (tokenForPath ⟨l, info, c2⟩ prefer_etag)) ∧
      (sha256HexOfString
          (pyJoin "|" ((listFiles ⟨l, info, c1⟩).map (tokenForPath ⟨l, info, c1⟩ prefer_etag))) ≠
        sha256HexOfString
          (pyJoin "|" ((listFiles ⟨l, info, c2⟩).map (tokenForPath ⟨l, info, c2⟩ prefer_etag))) →
       compute_data_fingerprint ⟨l, info, c1⟩ prefer_etag ≠
       compute_data_fingerprint ⟨l, info, c2⟩ prefer_etag)) ∧
    (∀ (l : List String) (info : String → Option InfoDict) (c1 c2 : String → List Nat)
       (p : String),
      (∀ q, q ≠ p → c1 q = c2 q) →
      (_extract_etag_like ((info p).getD [])).isSome = true →
      compute_data_fingerprint ⟨l, info, c1⟩ true =
      compute_data_fingerprint ⟨l, info, c2⟩ true) := by
  refine ⟨?_, ?_, ?_⟩
  · intro fs pe d hd
    have hfilt : List.filter (fun p => !pyEndsWith p "/") (fs.listing ++ [d]) =
        List.filter (fun p => !pyEndsWith p "/") fs.listing := by
      simp [List.filter_append, hd]
    have ht : tokenForPath ⟨fs.listing ++ [d], fs.info, fs.content⟩ = tokenForPath fs := rfl
    simp only [compute_data_fingerprint, listFiles, hfilt, ht]
  · intro l info c1 c2 pe p hp hoth hetag hhex
    have hfiles : listFiles ⟨l, info, c2⟩ = listFiles ⟨l, info, c1⟩ := rfl
    have hne1 : (listFiles ⟨l, info, c1⟩).isEmpty = false := by
      have hnn := List.ne_nil_of_mem hp
      cases hli : listFiles ⟨l, info, c1⟩ with
      | nil => exact absurd hli hnn
      | cons x xs => rfl
    have htok1 := tokenForPath_sha_fallback l info c1 pe p hetag
    have htok2 := tokenForPath_sha_fallback l info c2 pe p hetag
    have hjne : pyJoin "|" ((listFiles ⟨l, info, c1⟩).map (tokenForPath ⟨l, info, c1⟩ pe)) ≠
        pyJoin "|" ((listFiles ⟨l, info, c2⟩).map (tokenForPath ⟨l, info, c2⟩ pe)) := by
      rw [hfiles]
      apply pyJoin_map_ne (listFiles ⟨l, info, c1⟩)
        (tokenForPath ⟨l, info, c1⟩ pe) (tokenForPath ⟨l, info, c2⟩ pe) p hp
      · intro q _ hqp
        simp [tokenForPath, hoth q hqp]
      · rw [htok1, htok2]
        intro heq
        obtain ⟨_, h2⟩ := str_append_inj_left heq rfl
        exact hhex h2
      · rw [htok1, htok2]
        simp [String.length_append, length_bytesToHex, length_sha256Bytes]
    refine ⟨by simp [compute_data_fingerprint, hne1], ?_, hjne, ?_⟩
    · simp [compute_data_fingerprint, hfiles, hne1]
    · intro houter heq
      apply houter
      have e1 : compute_data_fingerprint ⟨l, info, c1⟩ pe =
          Except.ok (sha256HexOfString (pyJoin "|"
            ((listFiles ⟨l, info, c1⟩).map (tokenForPath ⟨l, info, c1⟩ pe)))) := by
        simp [compute_data_fingerprint, hne1]
      have e2 : compute_data_fingerprint ⟨l, info, c2⟩ pe =
          Except.ok (sha256HexOfString (pyJoin "|"
            ((listFiles ⟨l, info, c2⟩).map (tokenForPath ⟨l, info, c2⟩ pe)))) := by
        simp [compute_data_fingerprint, hfiles, hne1]
      rw [e1, e2] at heq
      exact Except.ok.inj heq
  · intro l info c1 c2 p hoth hsome
    obtain ⟨e, he⟩ := Option.isSome_iff_exists.mp hsome
    have ht : tokenForPath ⟨l, info, c1⟩ true = tokenForPath ⟨l, info, c2⟩ true := by
      funext q
      by_cases hq : q = p
      · subst hq
        simp [tokenForPath, he]
      · simp [tokenForPath, hoth q hq]
    have hfiles : listFiles ⟨l, info, c2⟩ = listFiles ⟨l, info, c1⟩ := rfl
    simp only [compute_data_fingerprint, ht, hfiles]

set_option maxRecDepth 200000 in
/-- Witness for C2 (amended) at concrete stores: adding the empty directory
entry `"sub/"` leaves the fingerprint unchanged; flipping the single byte
of `"f"` (whose token is the streaming-hash fallback) changes it — the
outer SHA-256 inequality discharged by computation; and flipping a byte of
a file whose metadata yields the weak size token leaves it unchanged. -/
theorem claim_C2_amended_witness :
    compute_data_fingerprint
        ⟨["f"] ++ ["sub/"], fun _ => none, fun _ => [0]⟩ true =
      compute_data_fingerprint ⟨["f"], fun _ => none, fun _ => [0]⟩ true ∧
    compute_data_fingerprint ⟨["f"], fun _ => none, fun _ => [0]⟩ true ≠
      compute_data_fingerprint ⟨["f"], fun _ => none,
        fun q => if q = "f" then [1] else [0]⟩ true ∧
    compute_data_fingerprint
        ⟨["f"], fun _ => some [("size", .pint 5)], fun _ => [0, 0, 0, 0, 0]⟩ true =
      compute_data_fingerprint
        ⟨["f"], fun _ => some [("size", .pint 5)],
          fun q => if q = "f" then [1, 0, 0, 0, 0] else [0, 0, 0, 0, 0]⟩ true := by
  refine ⟨?_, ?_, ?_⟩
  · exact claim_C2_amended.1 ⟨["f"], fun _ => none, fun _ => [0]⟩ true "sub/" (by decide)
  · have H := claim_C2_amended.2.1 ["f"] (fun _ => none) (fun _ => [0])
      (fun q => if q = "f" then [1] else [0]) true "f" (by decide)
      (fun q hq => by simp [hq]) (fun _ => rfl) (by decide)
    exact H.2.2.2 (by decide)
  · exact claim_C2_amended.2.2 ["f"] (fun _ => some [("size", .pint 5)])
      (fun _ => [0, 0, 0, 0, 0])
      (fun q => if q = "f" then [1, 0, 0, 0, 0] else [0, 0, 0, 0, 0]) "f"
      (fun q hq => by simp [hq]) (by decide)

/-- A configuration holding exactly the pydantic field defaults of
`PlatformConfig` (with values supplied for the two required fields and the
supervised-task target), used to instantiate witnesses. -/
def baseConfig : PlatformConfig where
  DATA_ROOT := "s3://bucket/data"
  PIPELINE_ROOT_URI := "s3://bucket/pipeline"
  TASK_TYPE := "classification"
  TASK_SUBTYPE := none
  TARGET_COLUMN := some "label"
  TARGET_DATAFRAME := none
  ENABLE_TIME_SPLIT := false
  TIME_COLUMN := none
  GROUP_COLUMN := none
  FORECAST_HORIZON := some 1
  SAMPLE_ROWS := 0
  STRICT_DATA_FINGERPRINT := true
  CANONICALIZATION_VERSION := "1.0.0"
  RANDOM_SEED := 42
  TASK_SUBTYPE_HINT := none
  ENABLE_RAY_TRANSFORMS := true
  RAY_ADDRESS := "local"
  RAY_NUM_CPUS := 4
  RAY_NUM_GPUS := 0
  FE_PARALLELISM := 8
  FE_BATCH_SIZE := 50000
  RAY_USE_STREAMING := none
  RAY_OBJECT_STORE_MEMORY := none
  ENABLE_FEATURETOOLS := false
  FT_TARGET_ENTITY := none
  FT_MAX_DEPTH := some 2
  FT_MAX_FEATURES := some 500
  FT_USE_TIME_INDEX := true
  MAX_FEATURES := 1000
  CORRELATION_THRESHOLD := ⟨"0.95"⟩
  MAX_MISSING_RATIO := ⟨"0.8"⟩
  ENABLE_LAG_FEATURES := false
  LAG_PERIODS := none
  ENABLE_ROLLING_FEATURES := false
  ROLLING_WINDOWS := none
  SPLIT_STRATEGY := "auto"
  TRAIN_SIZE := ⟨"0.8"⟩
  CV_FOLDS := 5
  STRATIFY_BY := none
  GROUP_SPLIT_COLUMN := none
  AUTOML_TIME_BUDGET := 0
  N_CONCURRENT_TRIALS := 1
  MODEL_LIST := none
  HANDLE_IMBALANCE := false
  IMBALANCE_STRATEGY := "auto"
  MAX_CLASS_IMBALANCE_RATIO := 10
  MODEL_BACKEND := "sklearn"
  DISTRIBUTED_TRAINING := false
  TRAINING_FRAMEWORK := "native"
  MODEL_FORMAT := "joblib"
  PRIMARY_METRIC := none
  PIPELINE_MODE := "full"
  EXISTING_MODEL_PATH := none
  FE_CPU_REQUEST := 4
  FE_MEMORY_REQUEST := "8Gi"
  TRAIN_CPU_REQUEST := 8
  TRAIN_MEMORY_REQUEST := "32Gi"
  TRAIN_GPU := 0
  CACHE_ENABLED := true
  CACHE_VERSION := "v1"
  FORCE_RERUN := false
  MAX_ROWS_FULL_LOAD := 2000000
  MAX_FEATURE_CAP_PLATFORM := 1000
  MAX_AUTOML_TIME_BUDGET := 1800
  ENABLE_MLFLOW := false
  MLFLOW_TRACKING_URI := none
  MLFLOW_EXPERIMENT_PREFIX := "ml8s_runs"
  MLFLOW_MODEL_NAME := none
  TRAINING_STAGE_TIMEOUT_SECONDS := 3600
  TRAINING_PIPELINE_MAX_SECONDS := 7200
  GLOBAL_RANDOM_SEED := 42
  DETERMINISTIC_TRAINING := true
  MIN_ACCEPTABLE_METRIC := none
  EARLY_STOPPING_ENABLED := true
  EARLY_STOPPING_ROUNDS := 50
  SAVE_OOF_PREDICTIONS := false
  ENABLE_FEATURE_IMPORTANCE := true
  ENABLE_SHAP_VALUES := false
  MAX_SHAP_SAMPLES := 5000
  EXPORT_BASELINE_STATISTICS := true
  DRIFT_REFERENCE_WINDOW := "train"
  EXPORT_PIPELINE_METRICS := true
  TENANT_ID := "default"
  PROJECT_ID := "default"
  PII_COLUMNS := none
  HASH_PII_COLUMNS := true
  LOG_SAMPLE_ROWS := false
  ARTIFACT_RETENTION_DAYS := 30
  REDACTED_ENV_KEYS :=
    some "AWS_SECRET_ACCESS_KEY,AZURE_CLIENT_SECRET,GOOGLE_APPLICATION_CREDENTIALS"
  LOG_LEVEL := "INFO"

/-- Witness for C9 at the default configuration: the two raw spellings
normalize to the same list, so the hash triples coincide. -/
theorem claim_C9_witness :
    canonical_json_and_hash [] { baseConfig with MODEL_LIST := some ["1", "2", "3"] }
        (some "d") =
      canonical_json_and_hash [] { baseConfig with MODEL_LIST := some ["1", "2", "3"] }
        (some "d") :=
  claim_C9.2.2 [] baseConfig (some "d") ["1", "2", "3"] ["1", "2", "3"]
    (by decide) (by decide)
